import Mathlib

/-!
Verification of the ragas test-set generator
(`src/ragas/testset/testset_generator.py` and `src/ragas/utils.py`).

The Python code drives external collaborators (a generator LLM, a critic LLM,
an embedding model, a document chunker and a random number generator).  Those
collaborators are modelled as oracle functions bundled in `Ragas.Oracles`:
each LLM/rng draw is a function of the loop-iteration index (and of the prompt
inputs), so a fixed oracle corresponds to one concrete run with fixed stubbed
collaborator responses, and quantifying over all oracles covers all runs.

Machine floats of the Python code are modelled as rationals; the cosine
similarity computed inside the external `get_top_k_embeddings` helper is
abstracted as an oracle function `sim` (the embedding service is external).
-/

namespace Ragas

/-- A llama-index node: a contiguous chunk of one document's text.
`docId` models `node.ref_doc_id` which equals `node.source_node.node_id`
(`none` models a node without a source relationship; the node parser always
sets one).  `id` models `node.id_`. -/
structure Node where
  id : String
  docId : Option String
  content : String
deriving DecidableEq

instance : Inhabited Node := ⟨⟨"", none, ""⟩⟩

/-- The namedtuple `DataRow` (line 61 of the source). -/
structure DataRow where
  question : String
  ground_truth_context : List String
  ground_truth : List String
  question_type : String
  episode_done : Bool
deriving DecidableEq

/-- The `TestDataset` dataclass: the final ordered collection of rows. -/
structure TestDataset where
  test_data : List DataRow
deriving DecidableEq

/-- Errors `generate`/`__init__` can raise before the assembly loop starts. -/
inductive GenError where
  /-- `documents[0]` on an empty list raises `IndexError`. -/
  | indexError
  /-- `raise ValueError(msg)`. -/
  | valueError (msg : String)
  /-- `npt.assert_almost_equal` raising `AssertionError(msg)`. -/
  | assertionError (msg : String)
deriving DecidableEq

/-- A document handed to `generate` (raw text; metadata irrelevant here). -/
structure Document where
  text : String
deriving DecidableEq

/-- A parsed JSON object as far as `_filter_question` observes it:
`j key` models `json_results.get(key)` (absent key gives `None`). -/
abbrev JsonObj : Type := String → Option String

/-- The `DEFAULT_TEST_DISTRIBUTION` constant (lines 49-54). -/
def DEFAULT_TEST_DISTRIBUTION : List (String × ℚ) :=
  [("simple", 2/5), ("reasoning", 1/5), ("multi_context", 1/5), ("conditional", 1/5)]

/-- The `question_deep_map` table (lines 56-59): evolution-type name to method name. -/
def question_deep_map : List (String × String) :=
  [("reasoning", "_reasoning_question"), ("conditional", "_condition_question")]

/-- Running totals, `np.cumsum` on the list of weights (line 130). -/
def cumsum (l : List ℚ) : List ℚ :=
  (l.foldl (fun acc v => (acc.1 ++ [acc.2 + v], acc.2 + v)) (([] : List ℚ), (0 : ℚ))).1

/-- Model of `dict(zip(types, np.cumsum(values)))` (lines 130-132): the stored
distribution maps each type name to its cumulative weight, in insertion
order. -/
def cumulativeDist (td : List (String × ℚ)) : List (String × ℚ) :=
  (td.map Prod.fst).zip (cumsum (td.map Prod.snd))

/-- Configuration fixed at construction time. `threshold` is 7.5 (line 136). -/
structure Config where
  testset_distribution : List (String × ℚ)
  chat_qa : ℚ
  chunk_size : Nat
  threshold : ℚ
deriving DecidableEq

/-- Model of `TestsetGenerator.__init__` (lines 110-137).  A falsy (empty) distribution
argument is replaced by the default (`testset_distribution or DEFAULT...`).
`npt.assert_almost_equal(1, sum, ...)` with the default `decimal=7` raises
`AssertionError` unless `abs(sum - 1) < 1.5 * 10^-7`.  The constructor makes
no model call, so it takes no oracles. -/
def TestsetGenerator.init (testset_distribution : List (String × ℚ))
    (chat_qa : ℚ) (chunk_size : Nat) : Except GenError Config :=
  let td := if testset_distribution.isEmpty then DEFAULT_TEST_DISTRIBUTION
            else testset_distribution
  if |(td.map Prod.snd).sum - 1| < 3 / 20000000 then
    .ok { testset_distribution := cumulativeDist td
          chat_qa := chat_qa
          chunk_size := chunk_size
          threshold := 15/2 }
  else
    .error (.assertionError "Sum of distribution should be 1")

/-- Model of `_get_evolve_type` (lines 160-172): first key of the cumulative
distribution whose threshold is at least the drawn probability, defaulting to
"simple". -/
def _get_evolve_type (dist : List (String × ℚ)) (prob : ℚ) : String :=
  ((dist.find? (fun kv => decide (prob ≤ kv.2))).map Prod.fst).getD "simple"

/-- Model of `_filter_context` (lines 174-186) with the critic-LLM call and
`load_as_score` parse collapsed into the `score` oracle: the gate passes iff
the score meets the threshold (`score >= self.threshold`). -/
def _filter_context (score : String → ℚ) (threshold : ℚ) (context : String) : Bool :=
  decide (threshold ≤ score context)

/-- The bounded repair loop inside `load_as_json` (`utils.py` lines 82-88):
`retry = 3; while retry > 0:` regenerate with the repair model and reparse.
`repair k` is the generator-model output of the k-th repair call;
`parse` models `json.loads` (`none` = `ValueError`). -/
def load_as_json_retry (parse : String → Option JsonObj) (repair : Nat → String) :
    Nat → Nat → Option JsonObj
  | 0, _ => none
  | r + 1, k =>
    match parse (repair k) with
    | some j => some j
    | none => load_as_json_retry parse repair r (k + 1)

/-- Model of `load_as_json` (`utils.py` lines 74-91): try `json.loads`; on failure run
up to 3 model-assisted repair passes; on exhaustion warn (`Bool` result) and
return the empty object `{}`. -/
def load_as_json (parse : String → Option JsonObj) (repair : Nat → String)
    (text : String) : JsonObj × Bool :=
  match parse text with
  | some j => (j, false)
  | none =>
    match load_as_json_retry parse repair 3 0 with
    | some j => (j, false)
    | none => ((fun _ => none), true)

/-- Model of `_filter_question` (lines 194-201) applied to the critic model's raw text
response: parse it with `load_as_json` and accept unless the verdict is
exactly "No" (`json_results.get("verdict") != "No"`).  Second component:
whether the invalid-json warning fired. -/
def filter_question (parse : String → Option JsonObj) (repair : Nat → String)
    (criticResponse : String) : Bool × Bool :=
  let r := load_as_json parse repair criticResponse
  (decide (r.1 "verdict" ≠ some "No"), r.2)

/-- Model of `_remove_nodes` (lines 249-254): remove each listed node from the pool.
Python's `list.remove` raises `ValueError` when the element is absent; at
every call site in `generate` the removed node is present (it was just drawn
from the pool, resp. is filed in its document's list by the node parser), so
the total `List.erase` is behaviour-equivalent there. -/
def _remove_nodes (available_indices : List Node) (node_idx : List Node) : List Node :=
  node_idx.foldl (fun acc nd => acc.erase nd) available_indices

/-- The per-document node map: `defaultdict(list)` keyed by `ref_doc_id`. -/
abbrev DocMap : Type := List (String × List Node)

/-- Append a node to the list filed under key `k` (inserting the key if new),
preserving insertion order. -/
def appendToDoc (m : DocMap) (k : String) (node : Node) : DocMap :=
  if (m.lookup k).isSome then
    m.map (fun kv => if kv.1 = k then (kv.1, kv.2 ++ [node]) else kv)
  else m ++ [(k, [node])]

/-- Model of `_generate_doc_nodes_map` (lines 256-264): file each node under its
`ref_doc_id`; nodes with a falsy (`None` or empty) id are skipped
(`if node.ref_doc_id:`). -/
def _generate_doc_nodes_map (document_nodes : List Node) : DocMap :=
  document_nodes.foldl
    (fun m node =>
      match node.docId with
      | some d => if d = "" then m else appendToDoc m d node
      | none => m)
    []

/-- Model of `doc_nodes_map[curr_node.source_node.node_id]` (line 331): defaultdict
lookup, absent keys give the empty list. -/
def lookupDoc (m : DocMap) (d : Option String) : List Node :=
  match d with
  | some k => (m.lookup k).getD []
  | none => []

/-- Overwrite the list filed under `d` with `l` (models the in-place mutation
of the shared neighbour list at line 353, which is visible through
`doc_nodes_map` for the rest of the run). -/
def updateDoc (m : DocMap) (d : Option String) (l : List Node) : DocMap :=
  match d with
  | some k =>
    if (m.lookup k).isSome then m.map (fun kv => if kv.1 = k then (kv.1, l) else kv)
    else m ++ [(k, l)]
  | none => m

/-- Model of `_get_neighbour_node` (lines 266-274).  Second component: whether the
"No neighbors exists" warning fired (the short-document case). -/
def _get_neighbour_node (node : Node) (related_nodes : List Node) : List Node × Bool :=
  if related_nodes.length < 2 then ([node], true)
  else
    let idx := related_nodes.indexOf node
    let ids := if idx = related_nodes.length - 1 then [idx - 1, idx] else [idx, idx + 1]
    (ids.map (fun i => related_nodes.getD i node), false)

/-- Model of `get_top_k_embeddings` of llama-index (external collaborator, called at
line 356 with `similarity_cutoff = threshold / 10` and no `similarity_top_k`):
keep the embeddings whose similarity to the query is strictly above the
cutoff, together with their positions, sorted by descending similarity.
The similarity function (cosine over floats) is abstracted as `sim`. -/
def get_top_k_embeddings (sim : List ℚ → List ℚ → ℚ) (query : List ℚ)
    (embeddings : List (List ℚ)) (cutoff : ℚ) : List ℚ × List Nat :=
  let pairs := (embeddings.enum.map (fun p => (sim query p.2, p.1))).filter
      (fun p => decide (cutoff < p.1))
  let sorted := pairs.insertionSort (fun a b => b.1 ≤ a.1)
  (sorted.map Prod.fst, sorted.map Prod.snd)

/-- Every external collaborator response and random draw of one run, indexed
by the assembly-loop iteration number where the code re-queries per
iteration. -/
structure Oracles where
  /-- `rng.uniform(0, 1)` inside `_get_evolve_type`. -/
  evolveProb : Nat → ℚ
  /-- the index picked by `rng.choice` (taken modulo the pool size). -/
  choiceIdx : Nat → Nat
  /-- `rng.integers(1, 3)` at line 334 (1 or 2). -/
  groupSize : Nat → Nat
  /-- `rng.uniform(0, 1)` at line 386 for the conversational branch. -/
  chatProb : Nat → ℚ
  /-- critic score for `_filter_context` (LLM call plus `load_as_score`). -/
  contextScore : Nat → String → ℚ
  /-- generator response for `_seed_question`, already stripped. -/
  seedQ : Nat → String → String
  /-- critic raw text for `_filter_question` on the seed question. -/
  criticSeed : Nat → String → String
  /-- critic raw text for `_filter_question` on the final question. -/
  criticFinal : Nat → String → String
  /-- `json.loads`: `none` models a `ValueError`. -/
  parseJson : String → Option JsonObj
  /-- generator responses for the JSON repair passes of the seed filter. -/
  repairSeed : Nat → Nat → String
  /-- generator responses for the JSON repair passes of the final filter. -/
  repairFinal : Nat → Nat → String
  /-- `_reasoning_question` generator response (question, context). -/
  reasoningQ : Nat → String → String → String
  /-- `_condition_question` generator response (question, context). -/
  conditionQ : Nat → String → String → String
  /-- `_multicontext_question` generator response (question, c1, c2). -/
  multiQ : Nat → String → String → String → String
  /-- `_conversational_question` generator response. -/
  convQ : Nat → String → String
  /-- `_compress_question` generator response. -/
  compressQ : Nat → String → String
  /-- `_generate_context` per-sub-question generator response. -/
  ctxF : Nat → String → String → String
  /-- `_generate_answer` per-sub-question generator response. -/
  ansF : Nat → String → String → String
  /-- `embed_query` on a node's content. -/
  embed : Nat → String → List ℚ
  /-- the similarity function used inside `get_top_k_embeddings`. -/
  sim : List ℚ → List ℚ → ℚ

/-- Helper for `splitLines`: accumulate the current line (reversed). -/
def splitLinesAux : List Char → List Char → List String
  | [], acc => [String.mk acc.reverse]
  | c :: cs, acc =>
    if c = '\n' then String.mk acc.reverse :: splitLinesAux cs []
    else splitLinesAux cs (c :: acc)

/-- Python's `s.split("\n")`: split on every newline, keeping empty pieces
(`"".split("\n") == [""]`). -/
def splitLines (s : String) : List String := splitLinesAux s.toList []

/-- Model of `_generate_context` (lines 243-247): one generator call per
newline-delimited sub-question, each against the whole text chunk. -/
def _generate_context (ctxF : String → String → String)
    (question text_chunk : String) : List String :=
  (splitLines question).map (fun qstn => ctxF qstn text_chunk)

/-- Model of `_generate_answer` (lines 237-241): one generator call per sub-question,
the i-th sub-question paired with the i-th context (`context[i]`; at the call
site both lists have the same length). -/
def _generate_answer (ansF : String → String → String)
    (question : String) (context : List String) : List String :=
  List.zipWith ansF (splitLines question) context

/-- The rows appended at lines 397-401: one `DataRow` per entry of
`zip(question.split("\n"), context, answer)`, with
`episode_done = False if is_conv and i == 0 else True` where
`is_conv = len(context) > 1`. -/
def emitRows (question : String) (context answer : List String)
    (evolve_type : String) : List DataRow :=
  let is_conv := decide (1 < context.length)
  ((splitLines question).zip (context.zip answer)).enum.map
    (fun p =>
      { question := p.2.1
        ground_truth_context := [p.2.2.1]
        ground_truth := [p.2.2.2]
        question_type := evolve_type
        episode_done := !(is_conv && decide (p.1 = 0)) })

/-- Result of one iteration of the assembly loop after the draw: the rows
appended, the counter increment, the (possibly mutated) document map, and —
as pure specification instrumentation — the final question when the EMIT
stage ran. -/
structure IterResult where
  rows : List DataRow
  inc : Nat
  docMap : DocMap
  emittedQuestion : Option String

/-- Model of the `question_deep_map.get(evolve_type)` dispatch (lines 376-382): mapped
types call the corresponding method via `getattr`, unmapped types keep the
seed question unchanged. -/
def evolveQuestion (rF cF : String → String → String)
    (evolve_type seed text_chunk : String) : String :=
  match question_deep_map.lookup evolve_type with
  | some f =>
    if f = "_reasoning_question" then rF seed text_chunk
    else if f = "_condition_question" then cF seed text_chunk
    else seed
  | none => seed

/-- The post-transform stage (lines 384-390): for non-simple types, convert
to a conversational question with probability `chat_qa` (the branch is taken
only when `chat_qa` is truthy, i.e. nonzero), otherwise compress. -/
def postTransform (O : Oracles) (cfg : Config) (n : Nat)
    (evolve_type question : String) : String :=
  if evolve_type ≠ "simple" then
    if cfg.chat_qa ≠ 0 ∧ O.chatProb n ≤ cfg.chat_qa then O.convQ n question
    else O.compressQ n question
  else question

/-- The shared tail of the loop body (lines 384-403): optional
compression/conversational post-transform for non-simple types, final
question filter, and the EMIT stage. -/
def finishEmit (O : Oracles) (cfg : Config) (n : Nat)
    (evolve_type question text_chunk : String) (docMap : DocMap) : IterResult :=
  let question2 := postTransform O cfg n evolve_type question
  if (filter_question O.parseJson (O.repairFinal n) (O.criticFinal n question2)).1 then
    let context := _generate_context (O.ctxF n) question2 text_chunk
    let answer := _generate_answer (O.ansF n) question2 context
    ⟨emitRows question2 context answer evolve_type, 1, docMap, some question2⟩
  else ⟨[], 0, docMap, none⟩

/-- The multi-context branch (lines 350-372): embed the drawn chunk, drop the
already-used nodes from the shared neighbour list, embed the remaining
neighbours, and ask `get_top_k_embeddings` for the neighbours above the
similarity cutoff `threshold / 10`.  Empty index list: the draw is abandoned
(`continue`).  Otherwise the best neighbour feeds `_multicontext_question`
and is appended to the text chunk. -/
def multiContextBranch (O : Oracles) (cfg : Config) (n : Nat)
    (seed_question text_chunk : String) (curr : Node) (nodes : List Node)
    (neighbor_nodes : List Node) (docMap : DocMap) : IterResult :=
  let q_emb := O.embed n (nodes.getLastD curr).content
  let neighbor_nodes2 := _remove_nodes neighbor_nodes nodes
  let docMap2 := updateDoc docMap curr.docId neighbor_nodes2
  let neighbor_emb := neighbor_nodes2.map (fun nd => O.embed n nd.content)
  let res := get_top_k_embeddings O.sim q_emb neighbor_emb (cfg.threshold / 10)
  match res.2 with
  | [] => ⟨[], 0, docMap2, none⟩
  | i0 :: _ =>
    let best_neighbor := neighbor_nodes2.getD i0 default
    let question := O.multiQ n seed_question text_chunk best_neighbor.content
    let text_chunk2 := "\n".intercalate [text_chunk, best_neighbor.content]
    finishEmit O cfg n "multi_context" question text_chunk2 docMap2

/-- One iteration of the assembly loop after DRAW (lines 331-403): neighbour
expansion, context scoring gate, question seeding, seed filter, evolution
dispatch, and the shared emit tail.  Early `continue` paths append nothing
and leave the counter unchanged. -/
def iterBody (O : Oracles) (cfg : Config) (n : Nat) (evolve_type : String)
    (curr : Node) (docMap : DocMap) : IterResult :=
  let neighbor_nodes := lookupDoc docMap curr.docId
  let size := O.groupSize n
  let nodes :=
    if 1 < size ∧ evolve_type ≠ "multi_context" then
      (_get_neighbour_node curr neighbor_nodes).1
    else [curr]
  let text_chunk := " ".intercalate (nodes.map Node.content)
  if ¬ (_filter_context (O.contextScore n) cfg.threshold text_chunk = true) then
    ⟨[], 0, docMap, none⟩
  else
    let seed_question := O.seedQ n text_chunk
    if ¬ ((filter_question O.parseJson (O.repairSeed n) (O.criticSeed n seed_question)).1 = true) then
      ⟨[], 0, docMap, none⟩
    else if evolve_type = "multi_context" then
      multiContextBranch O cfg n seed_question text_chunk curr nodes neighbor_nodes docMap
    else
      finishEmit O cfg n evolve_type
        (evolveQuestion (O.reasoningQ n) (O.conditionQ n) evolve_type seed_question text_chunk)
        text_chunk docMap

/-- Final state of the assembly loop.  `drawn` and `fuelOut` are pure
specification instrumentation: the nodes drawn (in order) and whether the
structural fuel ran out before the loop's own exit condition held (with fuel
at least the pool size this never happens, which is the termination
argument). -/
structure LoopResult where
  samples : List DataRow
  count : Nat
  pool : List Node
  docMap : DocMap
  drawn : List Node
  fuelOut : Bool

/-- The assembly loop (lines 326-403):
`while count < test_size and available_nodes != []`, each iteration picking a
random evolution type, drawing one random chunk, removing it from the pool
immediately, and running the loop body.  The recursion is structural on
`fuel`; one unit is spent per iteration, matching the one node removed from
the pool per iteration. -/
def generateLoop (O : Oracles) (cfg : Config) (test_size : Nat) :
    Nat → List Node → DocMap → Nat → Nat → List DataRow → List Node → LoopResult
  | 0, pool, dm, count, _, samples, drawn =>
    if count < test_size then
      match pool with
      | [] => ⟨samples, count, [], dm, drawn, false⟩
      | x :: xs => ⟨samples, count, x :: xs, dm, drawn, true⟩
    else ⟨samples, count, pool, dm, drawn, false⟩
  | fuel' + 1, pool, dm, count, n, samples, drawn =>
    if count < test_size then
      match pool with
      | [] => ⟨samples, count, [], dm, drawn, false⟩
      | x :: xs =>
        let evolve_type := _get_evolve_type cfg.testset_distribution (O.evolveProb n)
        let curr := (x :: xs).get
          ⟨O.choiceIdx n % (x :: xs).length, Nat.mod_lt _ (Nat.succ_pos xs.length)⟩
        let rest := (x :: xs).erase curr
        let r := iterBody O cfg n evolve_type curr dm
        generateLoop O cfg test_size fuel' rest r.docMap (count + r.inc) (n + 1)
          (samples ++ r.rows) (drawn ++ [curr])
    else ⟨samples, count, pool, dm, drawn, false⟩

/-- Model of `generate` (lines 285-405).  `chunker` models the external
`SimpleNodeParser` (document splitting is out of scope); it is not a model
call.  `documents[0]` on an empty list raises `IndexError`; a `test_size`
above the chunk count raises `ValueError` — both before the loop and before
any LLM/embedding request (the result of both error paths does not depend on
`O`).  The `isinstance` check always passes for typed input. -/
def generate (cfg : Config) (O : Oracles)
    (chunker : Nat → List Document → List Node)
    (documents : List Document) (test_size : Nat) : Except GenError TestDataset :=
  match documents with
  | [] => .error .indexError
  | _ :: _ =>
    let document_nodes := chunker cfg.chunk_size documents
    if test_size > document_nodes.length then
      .error (.valueError "Maximum possible number of samples exceeded, reduce test_size or add more documents")
    else
      let doc_nodes_map := _generate_doc_nodes_map document_nodes
      let r := generateLoop O cfg test_size document_nodes.length document_nodes
        doc_nodes_map 0 0 [] []
      .ok ⟨r.samples⟩

/-! Concrete fixtures used to exhibit runs of the model: a run with stubbed
collaborators that always accept, always score above threshold, and whose
generator returns a fixed three-line question. -/

/-- Stubbed collaborators: every critic response parses to an empty verdict
object (hence every filter accepts), the context score is 10, the seed
question has three newline-delimited sub-questions, and every similarity
is 0. -/
def stubOracle : Oracles where
  evolveProb := fun _ => 0
  choiceIdx := fun _ => 0
  groupSize := fun _ => 1
  chatProb := fun _ => 1
  contextScore := fun _ _ => 10
  seedQ := fun _ _ => "A\nB\nC"
  criticSeed := fun _ _ => ""
  criticFinal := fun _ _ => ""
  parseJson := fun _ => some (fun _ => none)
  repairSeed := fun _ _ => ""
  repairFinal := fun _ _ => ""
  reasoningQ := fun _ q _ => q
  conditionQ := fun _ q _ => q
  multiQ := fun _ q _ _ => q
  convQ := fun _ q => q
  compressQ := fun _ q => q
  ctxF := fun _ _ c => c
  ansF := fun _ q _ => q
  embed := fun _ _ => []
  sim := fun _ _ => 0

/-- The configuration produced by the constructor with the default
distribution, `chat_qa = 0`. -/
def stubConfig : Config where
  testset_distribution := cumulativeDist DEFAULT_TEST_DISTRIBUTION
  chat_qa := 0
  chunk_size := 1024
  threshold := 15/2

/-- A configuration whose rational constants are plain literals (no division),
so that a whole run of the model reduces inside the kernel: a distribution
fully weighted on "simple" (cumulative form) and an integer threshold. -/
def runConfig : Config where
  testset_distribution := [("simple", 1)]
  chat_qa := 0
  chunk_size := 1024
  threshold := 7

/-- Three chunks of one document. -/
def nodeA : Node := ⟨"1", some "d", "c1"⟩

/-- Three chunks of one document (second). -/
def nodeB : Node := ⟨"2", some "d", "c2"⟩

/-- Three chunks of one document (third). -/
def nodeC : Node := ⟨"3", some "d", "c3"⟩

/-- A JSON object whose verdict is exactly "No". -/
def verdictNo : JsonObj := fun k => if k = "verdict" then some "No" else none

/-- A parse stub that fails on every text except `"ok"`, which parses to a
verdict-"No" object; used to exercise the repair retry path. -/
def parseOkNo : String → Option JsonObj := fun s =>
  if s = "ok" then some verdictNo else none

/-- A repair stub whose third attempt (index 2) returns `"ok"`. -/
def repairThird : Nat → String := fun k => if k = 2 then "ok" else "bad"

/-! ## Helper lemmas -/

theorem emitRows_length (q : String) (c a : List String) (et : String) :
    (emitRows q c a et).length = (splitLines q).length ⊓ (c.length ⊓ a.length) := by
  simp [emitRows]

theorem emitRows_episode (q : String) (c a : List String) (et : String) (i : Nat)
    (hi : i < (emitRows q c a et).length) :
    ((emitRows q c a et).get ⟨i, hi⟩).episode_done
      = !(decide (1 < c.length) && decide (i = 0)) := by
  simp only [emitRows, List.get_eq_getElem, List.getElem_map, List.getElem_enum]

theorem emitRows_mem (q : String) (c a : List String) (et : String) (row : DataRow)
    (hr : row ∈ emitRows q c a et) :
    row.ground_truth_context.length = 1 ∧ row.ground_truth.length = 1 := by
  simp only [emitRows, List.mem_map] at hr
  obtain ⟨p, -, rfl⟩ := hr
  exact ⟨rfl, rfl⟩

theorem generate_context_length (f : String → String → String) (q tc : String) :
    (_generate_context f q tc).length = (splitLines q).length := by
  simp [_generate_context]

theorem generate_answer_length (f : String → String → String) (q : String)
    (c : List String) :
    (_generate_answer f q c).length = (splitLines q).length ⊓ c.length := by
  simp [_generate_answer]

/-! ## Claim theorems -/

/-- C1 (counterexample): a draw whose final question has three
newline-delimited sub-questions produces rows whose `episode_done` values are
`[false, true, true]` — the middle sub-question, which is not the last,
already has `episode_done = true`, contradicting the claim that
`episode_done` is false for every sub-question except the last. -/
theorem C1_counterexample :
    ((finishEmit stubOracle stubConfig 0 "simple" "A\nB\nC" "ctx" []).rows.map
      DataRow.episode_done) = [false, true, true] := by rfl

/-- C1 (amended): for every successful emission, where the final question
consists of N newline-delimited sub-questions, exactly N rows are appended
for that draw, and `episode_done` is false only for the first sub-question
(and only when there are at least two); every later sub-question, including
all middle ones and the last, has `episode_done = true`. -/
theorem C1_emission_shape (O : Oracles) (cfg : Config) (n : Nat)
    (et q tc : String) (dm : DocMap) (q2 : String)
    (h : (finishEmit O cfg n et q tc dm).emittedQuestion = some q2) :
    (finishEmit O cfg n et q tc dm).rows.length = (splitLines q2).length ∧
    ∀ i (hi : i < (finishEmit O cfg n et q tc dm).rows.length),
      ((finishEmit O cfg n et q tc dm).rows.get ⟨i, hi⟩).episode_done
        = !(decide (1 < (splitLines q2).length) && decide (i = 0)) := by
  by_cases hc : (filter_question O.parseJson (O.repairFinal n)
      (O.criticFinal n (postTransform O cfg n et q))).1 = true
  · have he : finishEmit O cfg n et q tc dm =
        ⟨emitRows (postTransform O cfg n et q)
            (_generate_context (O.ctxF n) (postTransform O cfg n et q) tc)
            (_generate_answer (O.ansF n) (postTransform O cfg n et q)
              (_generate_context (O.ctxF n) (postTransform O cfg n et q) tc)) et,
          1, dm, some (postTransform O cfg n et q)⟩ := by
      simp [finishEmit, hc]
    rw [he] at h
    obtain rfl : postTransform O cfg n et q = q2 := by
      simpa using h
    rw [he]
    dsimp only
    constructor
    · rw [emitRows_length, generate_answer_length, generate_context_length]
      simp
    · intro i hi
      rw [emitRows_episode, generate_context_length]
  · have he : finishEmit O cfg n et q tc dm = ⟨[], 0, dm, none⟩ := by
      simp [finishEmit, hc]
    rw [he] at h
    simp at h

/-- C1 (witness): a concrete emission with a three-line final question
exercises the amended theorem. -/
theorem C1_witness :
    (finishEmit stubOracle stubConfig 0 "simple" "A\nB\nC" "ctx" []).emittedQuestion
        = some "A\nB\nC" ∧
    ((finishEmit stubOracle stubConfig 0 "simple" "A\nB\nC" "ctx" []).rows.length
        = (splitLines "A\nB\nC").length ∧
      ∀ i (hi : i <
          (finishEmit stubOracle stubConfig 0 "simple" "A\nB\nC" "ctx" []).rows.length),
        ((finishEmit stubOracle stubConfig 0 "simple" "A\nB\nC" "ctx" []).rows.get
            ⟨i, hi⟩).episode_done
          = !(decide (1 < (splitLines "A\nB\nC").length) && decide (i = 0))) :=
  ⟨rfl, C1_emission_shape stubOracle stubConfig 0 "simple" "A\nB\nC" "ctx" [] "A\nB\nC" rfl⟩

/-- C3: for a chunk that is a member of its document's chunk list, the
neighbour lookup returns `[chunk]` with a warning when the list has fewer
than two chunks; otherwise `[previous, chunk]` when the chunk sits at the
last position, and `[chunk, next]` at any other position (positions are
first-occurrence indices, as computed by `list.index`). -/
theorem C3_neighbour_spec (node : Node) (related : List Node)
    (hmem : node ∈ related) :
    (related.length < 2 → _get_neighbour_node node related = ([node], true)) ∧
    (2 ≤ related.length → related.indexOf node = related.length - 1 →
      _get_neighbour_node node related
        = ([related.getD (related.length - 2) node, node], false)) ∧
    (2 ≤ related.length → related.indexOf node < related.length - 1 →
      _get_neighbour_node node related
        = ([node, related.getD (related.indexOf node + 1) node], false)) := by
  have hidx : related.indexOf node < related.length :=
    List.indexOf_lt_length.mpr hmem
  have hgd : related.getD (related.indexOf node) node = node := by
    rw [List.getD_eq_getElem _ _ hidx]
    exact List.indexOf_get hidx
  refine ⟨fun h2 => by simp [_get_neighbour_node, h2], ?_, ?_⟩
  · intro h2 hlast
    have hnl : ¬ related.length < 2 := by omega
    have hsub : related.indexOf node - 1 = related.length - 2 := by omega
    simp only [_get_neighbour_node, if_neg hnl]
    rw [if_pos hlast]
    simp only [List.map_cons, List.map_nil]
    rw [hgd, hsub]
  · intro h2 hmid
    have hnl : ¬ related.length < 2 := by omega
    have hne : ¬ related.indexOf node = related.length - 1 := by omega
    simp only [_get_neighbour_node, if_neg hnl]
    rw [if_neg hne]
    simp only [List.map_cons, List.map_nil]
    rw [hgd]

/-- C3 (witness): a three-chunk document, with the middle and the last chunk
exercising the two long-document cases. -/
theorem C3_witness :
    nodeB ∈ [nodeA, nodeB, nodeC] ∧
    (([nodeA, nodeB, nodeC].length < 2 →
        _get_neighbour_node nodeB [nodeA, nodeB, nodeC] = ([nodeB], true)) ∧
      (2 ≤ [nodeA, nodeB, nodeC].length →
        [nodeA, nodeB, nodeC].indexOf nodeB = [nodeA, nodeB, nodeC].length - 1 →
        _get_neighbour_node nodeB [nodeA, nodeB, nodeC]
          = ([[nodeA, nodeB, nodeC].getD ([nodeA, nodeB, nodeC].length - 2) nodeB,
              nodeB], false)) ∧
      (2 ≤ [nodeA, nodeB, nodeC].length →
        [nodeA, nodeB, nodeC].indexOf nodeB < [nodeA, nodeB, nodeC].length - 1 →
        _get_neighbour_node nodeB [nodeA, nodeB, nodeC]
          = ([nodeB, [nodeA, nodeB, nodeC].getD
              ([nodeA, nodeB, nodeC].indexOf nodeB + 1) nodeB], false))) :=
  ⟨by decide, C3_neighbour_spec nodeB [nodeA, nodeB, nodeC] (by decide)⟩

/-- C4: the question filter returns false only when the parsed verdict is
exactly "No" (first and second conjuncts: the result is computed from the
successfully parsed object, whether parsing succeeded directly or on the
third of the up-to-3 model-assisted repair passes); when the original text
and all 3 repair passes fail to parse, it degrades to the empty object with a
warning and accepts the question (third conjunct) — no failure propagates. -/
theorem C4_filter_question_spec (parse : String → Option JsonObj)
    (repair : Nat → String) (text : String) :
    (∀ j, parse text = some j →
      filter_question parse repair text = (decide (j "verdict" ≠ some "No"), false)) ∧
    (∀ j, parse text = none → parse (repair 0) = none → parse (repair 1) = none →
      parse (repair 2) = some j →
      filter_question parse repair text = (decide (j "verdict" ≠ some "No"), false)) ∧
    (parse text = none → (∀ k, k < 3 → parse (repair k) = none) →
      filter_question parse repair text = (true, true)) := by
  refine ⟨?_, ?_, ?_⟩
  · intro j h
    simp [filter_question, load_as_json, h]
  · intro j h0 hr0 hr1 hr2
    simp [filter_question, load_as_json, load_as_json_retry, h0, hr0, hr1, hr2]
  · intro h0 hrep
    have hr0 := hrep 0 (by omega)
    have hr1 := hrep 1 (by omega)
    have hr2 := hrep 2 (by omega)
    simp [filter_question, load_as_json, load_as_json_retry, h0, hr0, hr1, hr2]

/-- C4 (witness): a critic response that only parses on the third repair
attempt, to a verdict-"No" object, is rejected; a critic response that never
parses is accepted with the warning flag set. -/
theorem C4_witness :
    (parseOkNo "bad" = none ∧ parseOkNo (repairThird 0) = none ∧
      parseOkNo (repairThird 1) = none ∧ parseOkNo (repairThird 2) = some verdictNo ∧
      filter_question parseOkNo repairThird "bad"
        = (decide (verdictNo "verdict" ≠ some "No"), false)) ∧
    (filter_question (fun _ => none) (fun _ => "x") "bad" = (true, true)) :=
  ⟨⟨rfl, rfl, rfl, rfl,
      (C4_filter_question_spec parseOkNo repairThird "bad").2.1 verdictNo rfl rfl rfl rfl⟩,
    (C4_filter_question_spec (fun _ => none) (fun _ => "x") "bad").2.2 rfl
      (fun _ _ => rfl)⟩

/-- C7: for every evolution type that is not `multi_context` and has no entry
in `question_deep_map` (including "simple" and any unmapped type), the EVOLVE
dispatch passes the seed question through unchanged. -/
theorem C7_default_evolve (rF cF : String → String → String)
    (et seed tc : String) (_hmc : et ≠ "multi_context")
    (hmap : question_deep_map.lookup et = none) :
    evolveQuestion rF cF et seed tc = seed := by
  simp [evolveQuestion, hmap]

/-- C7 (witness): the "simple" type is unmapped and passes through. -/
theorem C7_witness :
    ("simple" ≠ "multi_context" ∧ question_deep_map.lookup "simple" = none) ∧
    evolveQuestion (fun q _ => q ++ "r") (fun q _ => q ++ "c") "simple" "seed" "tc"
      = "seed" :=
  ⟨⟨by decide, by decide⟩,
    C7_default_evolve _ _ _ _ _ (by decide) (by decide)⟩

/-- C10: calling `generate` with an empty documents list hits `documents[0]`
in the input-type validation and raises an uncaught `IndexError`, before any
other processing. -/
theorem C10_empty_documents (cfg : Config) (O : Oracles)
    (chunker : Nat → List Document → List Node) (test_size : Nat) :
    generate cfg O chunker [] test_size = .error .indexError := rfl

theorem get_top_k_mem_cutoff (sim : List ℚ → List ℚ → ℚ) (q : List ℚ)
    (embs : List (List ℚ)) (cutoff : ℚ) (i : Nat)
    (h : i ∈ (get_top_k_embeddings sim q embs cutoff).2) :
    ∃ hi : i < embs.length, cutoff < sim q (embs.get ⟨i, hi⟩) := by
  simp only [get_top_k_embeddings] at h
  rw [List.mem_map] at h
  obtain ⟨p, hp, rfl⟩ := h
  rw [List.mem_insertionSort, List.mem_filter] at hp
  obtain ⟨hp1, hp2⟩ := hp
  rw [List.mem_map] at hp1
  obtain ⟨je, hje, rfl⟩ := hp1
  rw [List.mem_enum_iff_getElem?] at hje
  obtain ⟨hj, hje'⟩ := List.getElem?_eq_some.mp hje
  refine ⟨hj, ?_⟩
  rw [List.get_eq_getElem, hje']
  simpa using hp2

theorem get_top_k_nil (sim : List ℚ → List ℚ → ℚ) (q : List ℚ)
    (embs : List (List ℚ)) (cutoff : ℚ)
    (h : ∀ e ∈ embs, sim q e ≤ cutoff) :
    (get_top_k_embeddings sim q embs cutoff).2 = [] := by
  simp only [get_top_k_embeddings]
  have hf : (embs.enum.map (fun p => (sim q p.2, p.1))).filter
      (fun p => decide (cutoff < p.1)) = [] := by
    rw [List.filter_eq_nil_iff]
    intro p hp
    rw [List.mem_map] at hp
    obtain ⟨je, hje, rfl⟩ := hp
    rw [List.mem_enum_iff_getElem?] at hje
    obtain ⟨hj, hje'⟩ := List.getElem?_eq_some.mp hje
    have : je.2 ∈ embs := hje' ▸ List.getElem_mem hj
    simp [not_lt.mpr (h je.2 this)]
  rw [hf]
  simp [List.insertionSort]

theorem multiContextBranch_abandon (O : Oracles) (cfg : Config) (n : Nat)
    (sq tc : String) (curr : Node) (nn : List Node) (dm : DocMap)
    (h : ∀ nd ∈ _remove_nodes nn [curr],
      O.sim (O.embed n curr.content) (O.embed n nd.content) ≤ cfg.threshold / 10) :
    (multiContextBranch O cfg n sq tc curr [curr] nn dm).rows = [] ∧
    (multiContextBranch O cfg n sq tc curr [curr] nn dm).inc = 0 := by
  have hlast : (([curr] : List Node).getLastD curr) = curr := by simp
  have hnil : (get_top_k_embeddings O.sim
      (O.embed n (([curr] : List Node).getLastD curr).content)
      ((_remove_nodes nn [curr]).map (fun nd => O.embed n nd.content))
      (cfg.threshold / 10)).2 = [] := by
    apply get_top_k_nil
    intro e he
    rw [List.mem_map] at he
    obtain ⟨nd, hnd, rfl⟩ := he
    rw [hlast]
    exact h nd hnd
  simp only [multiContextBranch]
  rw [hnil]
  exact ⟨rfl, rfl⟩

/-- C5: the multi-context resolver only ever returns neighbours whose
similarity is strictly above the cutoff (first conjunct, about
`get_top_k_embeddings` called with cutoff `threshold / 10`); and when every
not-yet-consumed neighbour of the drawn chunk has similarity at most
`threshold / 10`, the multi_context iteration appends no row and leaves the
counter unchanged — the draw is abandoned with no failure value, so the loop
simply continues with the next draw (second conjunct). -/
theorem C5_resolver_cutoff :
    (∀ (sim : List ℚ → List ℚ → ℚ) (q : List ℚ) (embs : List (List ℚ))
        (cutoff : ℚ) (i : Nat), i ∈ (get_top_k_embeddings sim q embs cutoff).2 →
        ∃ hi : i < embs.length, cutoff < sim q (embs.get ⟨i, hi⟩)) ∧
    (∀ (O : Oracles) (cfg : Config) (n : Nat) (curr : Node) (dm : DocMap),
        (∀ nd ∈ _remove_nodes (lookupDoc dm curr.docId) [curr],
          O.sim (O.embed n curr.content) (O.embed n nd.content) ≤ cfg.threshold / 10) →
        (iterBody O cfg n "multi_context" curr dm).rows = [] ∧
        (iterBody O cfg n "multi_context" curr dm).inc = 0) := by
  refine ⟨get_top_k_mem_cutoff, ?_⟩
  intro O cfg n curr dm h
  simp only [iterBody, ne_eq, not_true_eq_false, and_false, if_false, ite_false]
  split
  · exact ⟨rfl, rfl⟩
  · split
    · exact ⟨rfl, rfl⟩
    · split
      · exact multiContextBranch_abandon O cfg n _ _ curr _ dm h
      · rename_i hcontra
        exact absurd trivial hcontra

/-- C5 (witness): a resolver call returning index 0 above cutoff 0, and an
abandoned multi_context draw on a chunk whose one remaining document
neighbour has similarity 0, below the cutoff 7.5/10. -/
theorem C5_witness :
    ((0 : Nat) ∈ (get_top_k_embeddings (fun _ _ => 1) [] [[1]] 0).2 ∧
      ∃ hi : 0 < ([[1]] : List (List ℚ)).length,
        (0 : ℚ) < (fun _ _ => (1 : ℚ)) ([] : List ℚ) (([[1]] : List (List ℚ)).get ⟨0, hi⟩)) ∧
    ((∀ nd ∈ _remove_nodes
        (lookupDoc (_generate_doc_nodes_map [nodeA, nodeB]) nodeA.docId) [nodeA],
        stubOracle.sim (stubOracle.embed 0 nodeA.content) (stubOracle.embed 0 nd.content)
          ≤ stubConfig.threshold / 10) ∧
      ((iterBody stubOracle stubConfig 0 "multi_context" nodeA
          (_generate_doc_nodes_map [nodeA, nodeB])).rows = [] ∧
        (iterBody stubOracle stubConfig 0 "multi_context" nodeA
          (_generate_doc_nodes_map [nodeA, nodeB])).inc = 0)) := by
  have hm : (0 : Nat) ∈ (get_top_k_embeddings (fun _ _ => 1) [] [[1]] 0).2 := by decide
  have hv : ∀ nd ∈ _remove_nodes
      (lookupDoc (_generate_doc_nodes_map [nodeA, nodeB]) nodeA.docId) [nodeA],
      stubOracle.sim (stubOracle.embed 0 nodeA.content) (stubOracle.embed 0 nd.content)
        ≤ stubConfig.threshold / 10 := by
    intro nd _
    simp only [stubOracle, stubConfig]
    norm_num
  exact ⟨⟨hm, C5_resolver_cutoff.1 (fun _ _ => 1) [] [[1]] 0 0 hm⟩,
    ⟨hv, C5_resolver_cutoff.2 stubOracle stubConfig 0 nodeA
      (_generate_doc_nodes_map [nodeA, nodeB]) hv⟩⟩

/-- C6: constructing the generator with a nonempty distribution whose weights
do not sum to 1 within the `assert_almost_equal` tolerance fails with the
assertion error (first conjunct; the constructor makes no model call — it
takes no collaborator at all); and `generate` with a requested `test_size`
above the chunk count fails with the `ValueError` (second conjunct; the
result is the same for every oracle `O`, so no model call can have been made
before the failure — only the external chunker has run). -/
theorem C6_config_errors :
    (∀ (td : List (String × ℚ)) (cq : ℚ) (cs : Nat), td ≠ [] →
      ¬ (|(td.map Prod.snd).sum - 1| < 3 / 20000000) →
      TestsetGenerator.init td cq cs
        = .error (.assertionError "Sum of distribution should be 1")) ∧
    (∀ (cfg : Config) (O : Oracles) (chunker : Nat → List Document → List Node)
        (d : Document) (docs : List Document) (ts : Nat),
      (chunker cfg.chunk_size (d :: docs)).length < ts →
      generate cfg O chunker (d :: docs) ts
        = .error (.valueError "Maximum possible number of samples exceeded, reduce test_size or add more documents")) := by
  constructor
  · intro td cq cs htd habs
    have hne : td.isEmpty = false := by
      cases td with
      | nil => exact absurd rfl htd
      | cons a l => rfl
    simp [TestsetGenerator.init, hne, habs]
  · intro cfg O chunker d docs ts hts
    simp only [generate]
    rw [if_pos hts]

/-- C6 (witness): a weight sum of 3 trips the assertion, and `test_size = 5`
against a single chunk trips the `ValueError`. -/
theorem C6_witness :
    (([("simple", (3 : ℚ))] : List (String × ℚ)) ≠ [] ∧
      ¬ (|(([("simple", (3 : ℚ))].map Prod.snd).sum - 1)| < 3 / 20000000) ∧
      TestsetGenerator.init [("simple", (3 : ℚ))] 0 1024
        = .error (.assertionError "Sum of distribution should be 1")) ∧
    (((fun _ _ => [nodeA]) : Nat → List Document → List Node)
        stubConfig.chunk_size (⟨"x"⟩ :: []) |>.length) < 5 ∧
      generate stubConfig stubOracle (fun _ _ => [nodeA]) (⟨"x"⟩ :: []) 5
        = .error (.valueError "Maximum possible number of samples exceeded, reduce test_size or add more documents") := by
  have hnum : ¬ (|(([("simple", (3 : ℚ))].map Prod.snd).sum - 1)| < 3 / 20000000) := by
    norm_num
  have hlen : (((fun _ _ => [nodeA]) : Nat → List Document → List Node)
      stubConfig.chunk_size (⟨"x"⟩ :: []) |>.length) < 5 := by decide
  exact ⟨⟨List.cons_ne_nil _ _, hnum,
      C6_config_errors.1 [("simple", (3 : ℚ))] 0 1024 (List.cons_ne_nil _ _) hnum⟩,
    hlen, C6_config_errors.2 stubConfig stubOracle (fun _ _ => [nodeA]) ⟨"x"⟩ [] 5 hlen⟩

theorem finishEmit_inc_le (O : Oracles) (cfg : Config) (n : Nat)
    (et q tc : String) (dm : DocMap) :
    (finishEmit O cfg n et q tc dm).inc ≤ 1 := by
  simp only [finishEmit]
  split
  · exact Nat.le_refl 1
  · exact Nat.zero_le 1

theorem finishEmit_rows_singleton (O : Oracles) (cfg : Config) (n : Nat)
    (et q tc : String) (dm : DocMap) (row : DataRow)
    (h : row ∈ (finishEmit O cfg n et q tc dm).rows) :
    row.ground_truth_context.length = 1 ∧ row.ground_truth.length = 1 := by
  simp only [finishEmit] at h
  split at h
  · exact emitRows_mem _ _ _ _ row h
  · exact absurd h (List.not_mem_nil row)

theorem multiContextBranch_inc_le (O : Oracles) (cfg : Config) (n : Nat)
    (sq tc : String) (curr : Node) (nodes nn : List Node) (dm : DocMap) :
    (multiContextBranch O cfg n sq tc curr nodes nn dm).inc ≤ 1 := by
  simp only [multiContextBranch]
  split
  · exact Nat.zero_le 1
  · exact finishEmit_inc_le _ _ _ _ _ _ _

theorem multiContextBranch_rows_singleton (O : Oracles) (cfg : Config) (n : Nat)
    (sq tc : String) (curr : Node) (nodes nn : List Node) (dm : DocMap) (row : DataRow)
    (h : row ∈ (multiContextBranch O cfg n sq tc curr nodes nn dm).rows) :
    row.ground_truth_context.length = 1 ∧ row.ground_truth.length = 1 := by
  simp only [multiContextBranch] at h
  split at h
  · exact absurd h (List.not_mem_nil row)
  · exact finishEmit_rows_singleton _ _ _ _ _ _ _ row h

theorem iterBody_inc_le (O : Oracles) (cfg : Config) (n : Nat) (et : String)
    (curr : Node) (dm : DocMap) :
    (iterBody O cfg n et curr dm).inc ≤ 1 := by
  simp only [iterBody]
  repeat' split
  all_goals first
    | exact Nat.zero_le 1
    | exact multiContextBranch_inc_le _ _ _ _ _ _ _ _ _
    | exact finishEmit_inc_le _ _ _ _ _ _ _

theorem iterBody_rows_singleton (O : Oracles) (cfg : Config) (n : Nat) (et : String)
    (curr : Node) (dm : DocMap) (row : DataRow)
    (h : row ∈ (iterBody O cfg n et curr dm).rows) :
    row.ground_truth_context.length = 1 ∧ row.ground_truth.length = 1 := by
  simp only [iterBody] at h
  repeat' split at h
  all_goals first
    | exact absurd h (List.not_mem_nil row)
    | exact multiContextBranch_rows_singleton _ _ _ _ _ _ _ _ _ row h
    | exact finishEmit_rows_singleton _ _ _ _ _ _ _ row h

theorem drawStep_bridge (x : Node) (xs drawn : List Node) (curr : Node)
    (hcm : curr ∈ x :: xs) (r : LoopResult)
    (h : r.drawn.Nodup ∧
      r.pool.length + r.drawn.length
        = ((x :: xs).erase curr).length + (drawn ++ [curr]).length ∧
      (∀ y ∈ r.drawn, y ∈ (x :: xs).erase curr ∨ y ∈ drawn ++ [curr])) :
    r.drawn.Nodup ∧
    r.pool.length + r.drawn.length = (x :: xs).length + drawn.length ∧
    (∀ y ∈ r.drawn, y ∈ x :: xs ∨ y ∈ drawn) := by
  obtain ⟨h1, h2, h3⟩ := h
  refine ⟨h1, ?_, ?_⟩
  · have hl := List.length_erase_add_one hcm
    have ha : (drawn ++ [curr]).length = drawn.length + 1 := by simp
    omega
  · intro y hy
    rcases h3 y hy with h | h
    · exact Or.inl (List.erase_subset _ _ h)
    · rcases List.mem_append.mp h with h | h
      · exact Or.inr h
      · rw [List.mem_singleton] at h
        exact Or.inl (h ▸ hcm)

theorem generateLoop_draw_inv (O : Oracles) (cfg : Config) (ts : Nat) :
    ∀ (fuel : Nat) (pool : List Node) (dm : DocMap) (count n : Nat)
      (samples : List DataRow) (drawn : List Node),
      pool.Nodup → drawn.Nodup → (∀ x ∈ drawn, x ∉ pool) →
      (generateLoop O cfg ts fuel pool dm count n samples drawn).drawn.Nodup ∧
      (generateLoop O cfg ts fuel pool dm count n samples drawn).pool.length
          + (generateLoop O cfg ts fuel pool dm count n samples drawn).drawn.length
        = pool.length + drawn.length ∧
      (∀ y ∈ (generateLoop O cfg ts fuel pool dm count n samples drawn).drawn,
        y ∈ pool ∨ y ∈ drawn) := by
  intro fuel
  induction fuel with
  | zero =>
    intro pool dm count n samples drawn hnp hnd hdisj
    by_cases hlt : count < ts
    · cases pool with
      | nil =>
        simp only [generateLoop, if_pos hlt]
        exact ⟨hnd, by trivial, fun y hy => Or.inr hy⟩
      | cons x xs =>
        simp only [generateLoop, if_pos hlt]
        exact ⟨hnd, by trivial, fun y hy => Or.inr hy⟩
    · simp only [generateLoop, if_neg hlt]
      exact ⟨hnd, by trivial, fun y hy => Or.inr hy⟩
  | succ fuel ih =>
    intro pool dm count n samples drawn hnp hnd hdisj
    by_cases hlt : count < ts
    · cases pool with
      | nil =>
        simp only [generateLoop, if_pos hlt]
        exact ⟨hnd, by trivial, fun y hy => Or.inr hy⟩
      | cons x xs =>
        simp only [generateLoop, if_pos hlt]
        have key : ∀ c : Node, c ∈ x :: xs →
            (generateLoop O cfg ts fuel ((x :: xs).erase c)
                (iterBody O cfg n
                  (_get_evolve_type cfg.testset_distribution (O.evolveProb n)) c dm).docMap
                (count + (iterBody O cfg n
                  (_get_evolve_type cfg.testset_distribution (O.evolveProb n)) c dm).inc)
                (n + 1)
                (samples ++ (iterBody O cfg n
                  (_get_evolve_type cfg.testset_distribution (O.evolveProb n)) c dm).rows)
                (drawn ++ [c])).drawn.Nodup ∧
            (generateLoop O cfg ts fuel ((x :: xs).erase c)
                (iterBody O cfg n
                  (_get_evolve_type cfg.testset_distribution (O.evolveProb n)) c dm).docMap
                (count + (iterBody O cfg n
                  (_get_evolve_type cfg.testset_distribution (O.evolveProb n)) c dm).inc)
                (n + 1)
                (samples ++ (iterBody O cfg n
                  (_get_evolve_type cfg.testset_distribution (O.evolveProb n)) c dm).rows)
                (drawn ++ [c])).pool.length
              + (generateLoop O cfg ts fuel ((x :: xs).erase c)
                (iterBody O cfg n
                  (_get_evolve_type cfg.testset_distribution (O.evolveProb n)) c dm).docMap
                (count + (iterBody O cfg n
                  (_get_evolve_type cfg.testset_distribution (O.evolveProb n)) c dm).inc)
                (n + 1)
                (samples ++ (iterBody O cfg n
                  (_get_evolve_type cfg.testset_distribution (O.evolveProb n)) c dm).rows)
                (drawn ++ [c])).drawn.length = (x :: xs).length + drawn.length ∧
            (∀ y ∈ (generateLoop O cfg ts fuel ((x :: xs).erase c)
                (iterBody O cfg n
                  (_get_evolve_type cfg.testset_distribution (O.evolveProb n)) c dm).docMap
                (count + (iterBody O cfg n
                  (_get_evolve_type cfg.testset_distribution (O.evolveProb n)) c dm).inc)
                (n + 1)
                (samples ++ (iterBody O cfg n
                  (_get_evolve_type cfg.testset_distribution (O.evolveProb n)) c dm).rows)
                (drawn ++ [c])).drawn, y ∈ x :: xs ∨ y ∈ drawn) := by
          intro c hcm
          have hcd : c ∉ drawn := fun hh => hdisj c hh hcm
          have hnd' : (drawn ++ [c]).Nodup := by
            rw [List.nodup_append]
            exact ⟨hnd, List.nodup_singleton c,
              fun a ha hac => hcd ((List.mem_singleton.mp hac) ▸ ha)⟩
          have hdisj' : ∀ y ∈ drawn ++ [c], y ∉ (x :: xs).erase c := by
            intro y hy
            rcases List.mem_append.mp hy with h | h
            · exact fun hy' => hdisj y h (List.erase_subset _ _ hy')
            · rw [List.mem_singleton] at h
              subst h
              exact hnp.not_mem_erase
          exact drawStep_bridge x xs drawn c hcm _
            (ih ((x :: xs).erase c) _ _ _ _ _ (hnp.erase c) hnd' hdisj')
        exact key _ (List.get_mem _ _ _)
    · simp only [generateLoop, if_neg hlt]
      exact ⟨hnd, by trivial, fun y hy => Or.inr hy⟩

theorem generateLoop_exit (O : Oracles) (cfg : Config) (ts : Nat) :
    ∀ (fuel : Nat) (pool : List Node) (dm : DocMap) (count n : Nat)
      (samples : List DataRow) (drawn : List Node),
      pool.length ≤ fuel → count ≤ ts →
      (generateLoop O cfg ts fuel pool dm count n samples drawn).fuelOut = false ∧
      (generateLoop O cfg ts fuel pool dm count n samples drawn).count ≤ ts ∧
      ((generateLoop O cfg ts fuel pool dm count n samples drawn).count = ts ∨
        (generateLoop O cfg ts fuel pool dm count n samples drawn).pool = []) := by
  intro fuel
  induction fuel with
  | zero =>
    intro pool dm count n samples drawn hf hc
    have hpool : pool = [] := List.length_eq_zero.mp (Nat.le_zero.mp hf)
    subst hpool
    by_cases hlt : count < ts
    · simp only [generateLoop, if_pos hlt]
      exact ⟨by trivial, hc, Or.inr (by trivial)⟩
    · simp only [generateLoop, if_neg hlt]
      exact ⟨by trivial, hc, Or.inl (Nat.le_antisymm hc (Nat.not_lt.mp hlt))⟩
  | succ fuel ih =>
    intro pool dm count n samples drawn hf hc
    by_cases hlt : count < ts
    · cases pool with
      | nil =>
        simp only [generateLoop, if_pos hlt]
        exact ⟨by trivial, hc, Or.inr (by trivial)⟩
      | cons x xs =>
        simp only [generateLoop, if_pos hlt]
        have key : ∀ c : Node, c ∈ x :: xs →
            (generateLoop O cfg ts fuel ((x :: xs).erase c)
                (iterBody O cfg n
                  (_get_evolve_type cfg.testset_distribution (O.evolveProb n)) c dm).docMap
                (count + (iterBody O cfg n
                  (_get_evolve_type cfg.testset_distribution (O.evolveProb n)) c dm).inc)
                (n + 1)
                (samples ++ (iterBody O cfg n
                  (_get_evolve_type cfg.testset_distribution (O.evolveProb n)) c dm).rows)
                (drawn ++ [c])).fuelOut = false ∧
            (generateLoop O cfg ts fuel ((x :: xs).erase c)
                (iterBody O cfg n
                  (_get_evolve_type cfg.testset_distribution (O.evolveProb n)) c dm).docMap
                (count + (iterBody O cfg n
                  (_get_evolve_type cfg.testset_distribution (O.evolveProb n)) c dm).inc)
                (n + 1)
                (samples ++ (iterBody O cfg n
                  (_get_evolve_type cfg.testset_distribution (O.evolveProb n)) c dm).rows)
                (drawn ++ [c])).count ≤ ts ∧
            ((generateLoop O cfg ts fuel ((x :: xs).erase c)
                (iterBody O cfg n
                  (_get_evolve_type cfg.testset_distribution (O.evolveProb n)) c dm).docMap
                (count + (iterBody O cfg n
                  (_get_evolve_type cfg.testset_distribution (O.evolveProb n)) c dm).inc)
                (n + 1)
                (samples ++ (iterBody O cfg n
                  (_get_evolve_type cfg.testset_distribution (O.evolveProb n)) c dm).rows)
                (drawn ++ [c])).count = ts ∨
              (generateLoop O cfg ts fuel ((x :: xs).erase c)
                (iterBody O cfg n
                  (_get_evolve_type cfg.testset_distribution (O.evolveProb n)) c dm).docMap
                (count + (iterBody O cfg n
                  (_get_evolve_type cfg.testset_distribution (O.evolveProb n)) c dm).inc)
                (n + 1)
                (samples ++ (iterBody O cfg n
                  (_get_evolve_type cfg.testset_distribution (O.evolveProb n)) c dm).rows)
                (drawn ++ [c])).pool = []) := by
          intro c hcm
          apply ih
          · have hl := List.length_erase_add_one hcm
            have hxx : (x :: xs).length = xs.length + 1 := rfl
            omega
          · have h2 := iterBody_inc_le O cfg n
              (_get_evolve_type cfg.testset_distribution (O.evolveProb n)) c dm
            omega
        exact key _ (List.get_mem _ _ _)
    · simp only [generateLoop, if_neg hlt]
      exact ⟨by trivial, hc, Or.inl (Nat.le_antisymm hc (Nat.not_lt.mp hlt))⟩

theorem generateLoop_rows_pres (O : Oracles) (cfg : Config) (ts : Nat) :
    ∀ (fuel : Nat) (pool : List Node) (dm : DocMap) (count n : Nat)
      (samples : List DataRow) (drawn : List Node),
      (∀ row ∈ samples,
        row.ground_truth_context.length = 1 ∧ row.ground_truth.length = 1) →
      ∀ row ∈ (generateLoop O cfg ts fuel pool dm count n samples drawn).samples,
        row.ground_truth_context.length = 1 ∧ row.ground_truth.length = 1 := by
  intro fuel
  induction fuel with
  | zero =>
    intro pool dm count n samples drawn hs
    by_cases hlt : count < ts
    · cases pool with
      | nil => simpa only [generateLoop, if_pos hlt] using hs
      | cons x xs => simpa only [generateLoop, if_pos hlt] using hs
    · simpa only [generateLoop, if_neg hlt] using hs
  | succ fuel ih =>
    intro pool dm count n samples drawn hs
    by_cases hlt : count < ts
    · cases pool with
      | nil => simpa only [generateLoop, if_pos hlt] using hs
      | cons x xs =>
        simp only [generateLoop, if_pos hlt]
        have key : ∀ c : Node, c ∈ x :: xs →
            ∀ row ∈ (generateLoop O cfg ts fuel ((x :: xs).erase c)
                (iterBody O cfg n
                  (_get_evolve_type cfg.testset_distribution (O.evolveProb n)) c dm).docMap
                (count + (iterBody O cfg n
                  (_get_evolve_type cfg.testset_distribution (O.evolveProb n)) c dm).inc)
                (n + 1)
                (samples ++ (iterBody O cfg n
                  (_get_evolve_type cfg.testset_distribution (O.evolveProb n)) c dm).rows)
                (drawn ++ [c])).samples,
              row.ground_truth_context.length = 1 ∧ row.ground_truth.length = 1 := by
          intro c hcm
          apply ih
          intro row hrow
          rcases List.mem_append.mp hrow with h | h
          · exact hs row h
          · exact iterBody_rows_singleton _ _ _ _ _ _ row h
        exact key _ (List.get_mem _ _ _)
    · simpa only [generateLoop, if_neg hlt] using hs

/-- C2: in every run of the assembly loop over a duplicate-free pool, no
chunk is drawn twice (the ghost draw record is duplicate-free), the pool
shrinks by exactly one per draw — final pool size plus number of draws
equals the initial pool size, whatever the outcome of each draw — and every
drawn chunk came from the pool. -/
theorem C2_unique_draws (O : Oracles) (cfg : Config) (ts fuel : Nat)
    (pool : List Node) (dm : DocMap) (count n : Nat) (hnp : pool.Nodup) :
    (generateLoop O cfg ts fuel pool dm count n [] []).drawn.Nodup ∧
    (generateLoop O cfg ts fuel pool dm count n [] []).pool.length
        + (generateLoop O cfg ts fuel pool dm count n [] []).drawn.length
      = pool.length ∧
    ∀ y ∈ (generateLoop O cfg ts fuel pool dm count n [] []).drawn, y ∈ pool := by
  obtain ⟨h1, h2, h3⟩ := generateLoop_draw_inv O cfg ts fuel pool dm count n [] []
    hnp List.nodup_nil (by simp)
  refine ⟨h1, by simpa using h2, fun y hy => ?_⟩
  rcases h3 y hy with h | h
  · exact h
  · exact absurd h (List.not_mem_nil y)

/-- C2 (witness): a two-chunk pool. -/
theorem C2_witness :
    ([nodeA, nodeB] : List Node).Nodup ∧
    ((generateLoop stubOracle stubConfig 1 2 [nodeA, nodeB] [] 0 0 [] []).drawn.Nodup ∧
      (generateLoop stubOracle stubConfig 1 2 [nodeA, nodeB] [] 0 0 [] []).pool.length
          + (generateLoop stubOracle stubConfig 1 2 [nodeA, nodeB] [] 0 0 [] []).drawn.length
        = ([nodeA, nodeB] : List Node).length ∧
      ∀ y ∈ (generateLoop stubOracle stubConfig 1 2 [nodeA, nodeB] [] 0 0 [] []).drawn,
        y ∈ ([nodeA, nodeB] : List Node)) :=
  ⟨by decide, C2_unique_draws stubOracle stubConfig 1 2 [nodeA, nodeB] [] 0 0 (by decide)⟩

/-- C8: the assembly loop always terminates at its own exit condition — with
fuel at least the pool size (as `generate` supplies) the structural fuel
never runs out, and the final state has either reached the requested
`test_size` exactly (the satisfied-draw counter never overshoots) or emptied
the pool (first conjunct); and whenever the pre-checks pass, `generate`
returns an `ok` dataset — in particular exhausting the pool before the target
is not an error (second conjunct). -/
theorem C8_termination_shortfall :
    (∀ (O : Oracles) (cfg : Config) (ts fuel : Nat) (pool : List Node) (dm : DocMap)
        (count n : Nat) (samples : List DataRow) (drawn : List Node),
      pool.length ≤ fuel → count ≤ ts →
      (generateLoop O cfg ts fuel pool dm count n samples drawn).fuelOut = false ∧
      (generateLoop O cfg ts fuel pool dm count n samples drawn).count ≤ ts ∧
      ((generateLoop O cfg ts fuel pool dm count n samples drawn).count = ts ∨
        (generateLoop O cfg ts fuel pool dm count n samples drawn).pool = [])) ∧
    (∀ (cfg : Config) (O : Oracles) (chunker : Nat → List Document → List Node)
        (d : Document) (docs : List Document) (ts : Nat),
      ts ≤ (chunker cfg.chunk_size (d :: docs)).length →
      ∃ ds, generate cfg O chunker (d :: docs) ts = .ok ds) := by
  constructor
  · intro O cfg ts fuel pool dm count n samples drawn hf hc
    exact generateLoop_exit O cfg ts fuel pool dm count n samples drawn hf hc
  · intro cfg O chunker d docs ts hts
    simp only [generate]
    rw [if_neg (Nat.not_lt.mpr hts)]
    exact ⟨_, rfl⟩

/-- C8 (witness): a loop instance with fuel equal to the pool size, and a
`generate` call whose target of 1 is within the three available chunks. -/
theorem C8_witness :
    (([nodeA, nodeB] : List Node).length ≤ 2 ∧ (0 : Nat) ≤ 1 ∧
      ((generateLoop stubOracle stubConfig 1 2 [nodeA, nodeB] [] 0 0 [] []).fuelOut = false ∧
        (generateLoop stubOracle stubConfig 1 2 [nodeA, nodeB] [] 0 0 [] []).count ≤ 1 ∧
        ((generateLoop stubOracle stubConfig 1 2 [nodeA, nodeB] [] 0 0 [] []).count = 1 ∨
          (generateLoop stubOracle stubConfig 1 2 [nodeA, nodeB] [] 0 0 [] []).pool = []))) ∧
    ((1 : Nat) ≤ (((fun _ _ => [nodeA, nodeB, nodeC]) : Nat → List Document → List Node)
        stubConfig.chunk_size (⟨"x"⟩ :: []) |>.length) ∧
      ∃ ds, generate stubConfig stubOracle (fun _ _ => [nodeA, nodeB, nodeC])
        (⟨"x"⟩ :: []) 1 = .ok ds) :=
  ⟨⟨by decide, by decide,
      C8_termination_shortfall.1 stubOracle stubConfig 1 2 [nodeA, nodeB] [] 0 0 [] []
        (by decide) (by decide)⟩,
    ⟨by decide,
      C8_termination_shortfall.2 stubConfig stubOracle (fun _ _ => [nodeA, nodeB, nodeC])
        ⟨"x"⟩ [] 1 (by decide)⟩⟩

/-- C9: every row of a dataset successfully returned by `generate` has
`ground_truth_context` and `ground_truth` as singleton lists — the per-draw
context and answer lists are distributed one element per row, never grouped,
including conversational emissions of several rows. -/
theorem C9_singleton_truths (cfg : Config) (O : Oracles)
    (chunker : Nat → List Document → List Node) (docs : List Document) (ts : Nat)
    (ds : TestDataset) (h : generate cfg O chunker docs ts = .ok ds) :
    ∀ row ∈ ds.test_data,
      row.ground_truth_context.length = 1 ∧ row.ground_truth.length = 1 := by
  cases docs with
  | nil => exact absurd h (by simp [generate])
  | cons d docs =>
    simp only [generate] at h
    by_cases hts : (chunker cfg.chunk_size (d :: docs)).length < ts
    · rw [if_pos hts] at h
      exact absurd h (by simp)
    · rw [if_neg hts] at h
      injection h with h'
      subst h'
      intro row hrow
      exact generateLoop_rows_pres O cfg ts _ _ _ _ _ _ _
        (fun r hr => absurd hr (List.not_mem_nil r)) row hrow

/-- C9 (witness): a full run with a three-sub-question conversational-style
emission returns three rows, each with singleton context and answer lists. -/
theorem C9_witness :
    generate runConfig stubOracle (fun _ _ => [nodeA]) (⟨"x"⟩ :: []) 1
        = .ok ⟨[⟨"A", ["c1"], ["A"], "simple", false⟩,
                ⟨"B", ["c1"], ["B"], "simple", true⟩,
                ⟨"C", ["c1"], ["C"], "simple", true⟩]⟩ ∧
    ∀ row ∈ (⟨[⟨"A", ["c1"], ["A"], "simple", false⟩,
                ⟨"B", ["c1"], ["B"], "simple", true⟩,
                ⟨"C", ["c1"], ["C"], "simple", true⟩]⟩ : TestDataset).test_data,
      row.ground_truth_context.length = 1 ∧ row.ground_truth.length = 1 :=
  ⟨rfl, C9_singleton_truths runConfig stubOracle (fun _ _ => [nodeA]) (⟨"x"⟩ :: []) 1
      ⟨[⟨"A", ["c1"], ["A"], "simple", false⟩,
        ⟨"B", ["c1"], ["B"], "simple", true⟩,
        ⟨"C", ["c1"], ["C"], "simple", true⟩]⟩ rfl⟩

end Ragas
